import Mathlib

/-!
Shallow embedding of the SaltyRTC signalling server core
(`saltyrtc/server/protocol.py`): the `Path` slot table, the `Client` session,
and the `Protocol` engine's handshake, relay, keep-alive and join logic.

Python dicts are embedded as association lists in insertion order; Python
exceptions are embedded as `Except ProtoErr`; `None` is `Option.none`.
Coroutine scheduling (`create_task`, `yield from`) is embedded by recording
the messages handed to `Client.send` as explicit action lists, in program
order.
-/

set_option maxRecDepth 8192

namespace Saltyrtc

/-- Exception kinds raised by the embedded code. `MessageError`,
`MessageFlowError`, `SlotsFullError`, `PingTimeoutError`, `SignalingError`,
`PathError` and `Disconnected` come from the repository's `exception` module
(imported by `protocol.py`); `valueError`, `typeError` and `attributeError`
are the Python builtins raised by the embedded statements. -/
inductive ProtoErr
  | valueError
  | typeError
  | attributeError
  | messageError
  | messageFlowError
  | slotsFullError
  | pingTimeoutError
  | signalingError
  | pathError
  | disconnected
deriving DecidableEq, Repr

/-- Modelled from the spec: `common.ReceiverType` (common.py is not under
src/): receiver byte `0x00` = server, `0x01` = initiator, `0x02`-`0xFF` =
responder. -/
inductive ReceiverType
  | server
  | initiator
  | responder
deriving DecidableEq, Repr

/-- A client session (`Client` in protocol.py), reduced to the state the
engine's control flow reads: an abstract identity standing for the WebSocket
connection, the receiver type set during the handshake, and the
`authenticated` flag. The crypto fields (`_client_key`, `_server_key`,
`_box`) and the logger are not read by any embedded branch. -/
structure Client where
  id : Nat
  type : Option ReceiverType
  authenticated : Bool
deriving DecidableEq, Repr

/-- The attribute names of the `Client` class: its `__slots__` together with
the methods and properties its body defines. `protocol.py` defines no
`close` on `Client`. -/
def Client.attrNames : List String :=
  ["_log", "_connection", "_client_key", "_server_key", "_box",
   "type", "authenticated",
   "server_key", "box", "set_client_key", "update_log_name", "p2p_allowed",
   "send", "receive", "ping"]

/-- Python attribute access `x.close` on `x : Client?`: `None` has no
attribute `close`, and a `Client` instance has one exactly when `close` is
among the class's attributes. The engine evaluates this lookup before
`create_task(... .close())` can run. -/
def pyGetattrClose : Option Client → Except ProtoErr Unit
  | none => .error .attributeError
  | some _ =>
      if "close" ∈ Client.attrNames then .ok () else .error .attributeError

/-- Python dict assignment `d[k] = v` on an association list in insertion
order: update in place when the key is present, append otherwise. -/
def dictSet (l : List (Nat × Option Client)) (k : Nat) (v : Option Client) :
    List (Nat × Option Client) :=
  if l.any (fun kv => kv.1 == k) then
    l.map (fun kv => if kv.1 == k then (k, v) else kv)
  else
    l ++ [(k, v)]

/-- Python `d.get(k)` on the slots dict: the stored value when the key is
present (the values are themselves `Client?`), `None` otherwise. -/
def dictGet (l : List (Nat × Option Client)) (k : Nat) : Option Client :=
  (l.lookup k).getD none

/-- `Path` from protocol.py: the slots dict, created by `__init__` with the
keys `0x01..0xff` all mapped to `None`, plus the initiator key and the path
number. -/
structure Path where
  slots : List (Nat × Option Client)
  initiator_key : List Nat
  number : Nat
deriving DecidableEq, Repr

/-- `Path.__init__`: `self._slots = {id_: None for id_ in range(0x01, 0xff + 1)}`. -/
def Path.init (initiator_key : List Nat) (number : Nat) : Path :=
  ⟨(List.range' 1 255).map (fun id_ => (id_, none)), initiator_key, number⟩

/-- `Path.empty`: all slot values are `None`. -/
def Path.empty (p : Path) : Bool :=
  p.slots.all (fun kv => kv.2 == none)

/-- `Path.get_initiator`: `self._slots.get(0x01)`. -/
def Path.get_initiator (p : Path) : Option Client :=
  dictGet p.slots 0x01

/-- `Path.set_initiator`: read the previous occupant of slot `0x01`, store
the new initiator there, and return the previous occupant (the
`update_log_name` call only renames the logger). -/
def Path.set_initiator (p : Path) (initiator : Client) : Option Client × Path :=
  let previous_initiator := dictGet p.slots 0x01
  (previous_initiator, { p with slots := dictSet p.slots 0x01 (some initiator) })

/-- `Path.get_responder`: raises `ValueError` unless `0x01 < id_ <= 0xff`,
else returns `self._slots.get(id_)`. -/
def Path.get_responder (p : Path) (id_ : Nat) : Except ProtoErr (Option Client) :=
  if ¬ (0x01 < id_ ∧ id_ ≤ 0xff) then .error .valueError
  else .ok (dictGet p.slots id_)

/-- `Path.get_responder_ids`:
`[id_ for id_ in self._slots.keys() if id_ > 0x01]` — a filter over the
KEYS only; the slot values (occupancy) are never consulted. -/
def Path.get_responder_ids (p : Path) : List Nat :=
  (p.slots.map Prod.fst).filter (fun id_ => 0x01 < id_)

/-- A Python value, as far as iterating the slots dict requires: the dict
keys are ints; a tuple would be needed for the target pattern
`for id_, client in ...` to unpack. -/
inductive PyVal
  | int (n : Nat)
  | tup (fst snd : PyVal)
  | pynone
  | clientV (c : Client)
deriving DecidableEq, Repr

/-- Tuple unpacking of a loop target `id_, client`: succeeds on a pair,
raises `TypeError` on anything else (in particular on an int). -/
def pyUnpack2 : PyVal → Except ProtoErr (PyVal × PyVal)
  | .tup a b => .ok (a, b)
  | _ => .error .typeError

/-- Iterating a Python dict (`for ... in self._slots`) yields its KEYS, in
insertion order. -/
def dictIterKeys (slots : List (Nat × Option Client)) : List PyVal :=
  slots.map (fun kv => PyVal.int kv.1)

/-- The loop body of `Path.add_responder` over the iterated items: unpack
the item into `id_, client`; if `client is None`, store the responder under
`id_` and return `id_`; otherwise continue; after the loop, raise
`SlotsFullError`. (The non-int-key fallthrough is unreachable for this
dict, whose keys are all ints.) -/
def Path.addResponderLoop (p : Path) (responder : Client) :
    List PyVal → Except ProtoErr (Nat × Path)
  | [] => .error .slotsFullError
  | item :: rest => do
      let (idV, clientV) ← pyUnpack2 item
      match idV with
      | .int id_ =>
          if clientV = PyVal.pynone then
            .ok (id_, { p with slots := dictSet p.slots id_ (some responder) })
          else
            p.addResponderLoop responder rest
      | _ => p.addResponderLoop responder rest

/-- `Path.add_responder`: `for id_, client in self._slots: ...` — the
iteration is over the dict itself, which yields keys, not `(key, value)`
pairs. -/
def Path.add_responder (p : Path) (responder : Client) :
    Except ProtoErr (Nat × Path) :=
  p.addResponderLoop responder (dictIterKeys p.slots)

/-- Modelled from the spec: `util.consteq` (util.py is not under src/) is a
constant-time cookie comparison; functionally it is equality of the two byte
strings. -/
def consteq (a b : List Nat) : Bool :=
  a == b

/-- A raw (relay) message as `unpack` surfaces it for an authenticated
sender: the nonce, the untouched ciphertext and the destination byte.
Modelled from the spec where it concerns message.py (not under src/). -/
structure RawMsg where
  nonce : List Nat
  ciphertext : List Nat
  receiver : Nat
deriving DecidableEq, Repr

/-- Modelled from the spec: `RawMessage.pack` (message.py is not under
src/) returns the original wire bytes, `nonce ∥ ciphertext`, verbatim. -/
def RawMsg.pack (m : RawMsg) : List Nat :=
  m.nonce ++ m.ciphertext

/-- The server-originated messages the embedded engine hands to
`Client.send`, with the payload fields the claims speak about.
`serverAuth`'s first field is the `responder_ids` keyword argument: `some`
for the initiator variant of `ServerAuthMessage.create`, `none` for the
responder variant. -/
inductive Msg
  | serverHello
  | serverAuth (responder_ids : Option (List Nat)) (your_cookie : List Nat)
  | newResponder (id_ : Nat)
  | sendError (payload : List Nat)
  | rawRelay (wire : List Nat)
deriving DecidableEq, Repr

/-- A send recorded by the engine: the target session and the message. -/
abbrev SendAction := Client × Msg

/-- The second client message of a handshake, as received after
`server-hello` (the codec itself lives in message.py, not under src/; only
the fields `protocol.py` reads are carried). -/
inductive ClientMsg
  | clientHello (key : List Nat)
  | clientAuth (your_cookie : List Nat) (cookie : List Nat)
  | otherMsg
deriving DecidableEq, Repr

/-- `Protocol._handshake_initiator`, after `client-auth` was received
(lines 318-342): validate the echoed server cookie, mark the client
authenticated, install it in slot `0x01`, evaluate
`previous_initiator.close` for `create_task` — `previous_initiator` may be
`None`, and the `Client` class defines no `close` — then send `server-auth`
with `path.get_responder_ids()` to the initiator. -/
def handshake_initiator (p : Path) (initiator : Client)
    (message : ClientMsg) (server_cookie : List Nat) :
    Except ProtoErr (Path × List SendAction) :=
  match message with
  | .clientAuth your_cookie client_cookie =>
      if ¬ consteq your_cookie server_cookie then .error .messageError
      else do
        let initiator := { initiator with authenticated := true }
        let (previous_initiator, p) := p.set_initiator initiator
        let _ ← pyGetattrClose previous_initiator
        let responder_ids := p.get_responder_ids
        .ok (p, [(initiator, Msg.serverAuth (some responder_ids) client_cookie)])
  | _ => .error .messageFlowError

/-- `Protocol._handshake_responder` (lines 344-381), from the point where
the second client message has been received (`set_client_key` only updates
the crypto fields, which the control flow does not read): require
`client-auth`, validate the echoed server cookie, mark the client
authenticated, call `path.add_responder`, dispatch `new-responder` to the
initiator when present, then execute `yield from initiator.send(message)`
for the `server-auth` — the source names `initiator`, not `responder`, as
the send target, and `initiator` may be `None`. -/
def handshake_responder (p : Path) (responder : Client)
    (message : ClientMsg) (server_cookie : List Nat) :
    Except ProtoErr (Path × List SendAction) :=
  match message with
  | .clientAuth your_cookie client_cookie =>
      if ¬ consteq your_cookie server_cookie then .error .messageError
      else do
        let responder := { responder with authenticated := true }
        let (id_, p) ← p.add_responder responder
        let initiator := p.get_initiator
        let notify : List SendAction :=
          match initiator with
          | some i => [(i, Msg.newResponder id_)]
          | none => []
        match initiator with
        | some i =>
            .ok (p, notify ++ [(i, Msg.serverAuth none client_cookie)])
        | none => .error .attributeError
  | _ => .error .messageFlowError

/-- The outcome of the bounded send to the receiver inside
`Protocol._relay_message`: delivered in time, `asyncio.TimeoutError` from
`wait_for`, or `Disconnected` from the receiver's connection. -/
inductive SendOutcome
  | delivered
  | timedOut
  | disconnected
deriving DecidableEq, Repr

/-- `Protocol._relay_message` (lines 447-475): pack the message once; if
the receiver is `None`, send a `send-error` carrying
`crypto_hash_sha256(message_data)` back to the sender; otherwise forward
the wire bytes to the receiver with a bounded wait, falling back to the
same `send-error` on timeout or disconnect. `sha256` abstracts
`libnacl.crypto_hash_sha256` (an external vetted primitive). -/
def relay_message (sha256 : List Nat → List Nat) (sender : Client)
    (receiver : Option Client) (message : RawMsg) (outcome : SendOutcome) :
    List SendAction :=
  let message_data := message.pack
  let send_error : List SendAction :=
    [(sender, Msg.sendError (sha256 message_data))]
  match receiver with
  | none => send_error
  | some r =>
      match outcome with
      | .delivered => [(r, Msg.rawRelay message_data)]
      | .timedOut => send_error
      | .disconnected => send_error

/-- A message arriving in a post-handshake receive loop: a relay
(`RawMessage`) frame, a `drop-responder`, or any other type. -/
inductive InMsg
  | raw (m : RawMsg)
  | dropResponder (id_ : Nat)
  | otherType
deriving DecidableEq, Repr

/-- A task `Protocol._run_initiator` schedules during one loop iteration:
a `_relay_message` task with the looked-up receiver, or a `close()` on a
responder being dropped. -/
inductive InitiatorAction
  | relayTask (receiver : Option Client) (m : RawMsg)
  | closeResponder (r : Client)
deriving DecidableEq, Repr

/-- One iteration of `Protocol._run_initiator` (lines 403-428): a
`RawMessage` is looked up via `path.get_responder(message.receiver)`
(whose `ValueError` propagates) and handed to a `_relay_message` task;
`drop-responder` looks up the responder and evaluates `responder.close`
for `create_task` when present; anything else raises
`MessageFlowError`. -/
def run_initiator_step (p : Path) (message : InMsg) :
    Except ProtoErr (List InitiatorAction) :=
  match message with
  | .raw m => do
      let responder ← p.get_responder m.receiver
      .ok [.relayTask responder m]
  | .dropResponder id_ => do
      let responder ← p.get_responder id_
      match responder with
      | some r => do
          let _ ← pyGetattrClose (some r)
          .ok [.closeResponder r]
      | none => .ok []
  | .otherType => .error .messageFlowError

/-- `Protocol._run_initiator`'s receive loop over a finite prefix of
received messages (the `while not self._closed_future.done()` guard is the
loop bound); the path is not mutated by the loop itself, and any raised
exception propagates out of the loop. -/
def run_initiator_loop (p : Path) :
    List InMsg → Except ProtoErr (List InitiatorAction)
  | [] => .ok []
  | m :: rest => do
      let acts ← run_initiator_step p m
      let more ← run_initiator_loop p rest
      .ok (acts ++ more)

/-- The timeline of the keep-alive loop: the ping (with its bounded wait)
and the sleep between rounds. -/
inductive KAct
  | ping
  | sleepFor (seconds : Nat)
deriving DecidableEq, Repr

/-- `Protocol._keep_alive` (lines 383-401) over a finite prefix of ping
rounds. `timeout` and `interval` are `KEEP_ALIVE_TIMEOUT` and
`KEEP_ALIVE_INTERVAL` (common.py is not under src/; the spec gives the
30 s default timeout). `pong_delays` gives, per round, the time until the
transport ping operation completes — modelled from the spec, which
contracts the bounded wait as waiting for the peer's pong. A round whose
delay exceeds the timeout makes `asyncio.wait_for` raise
`asyncio.TimeoutError`, which the loop converts to `PingTimeoutError`;
otherwise the loop sleeps for `interval` and repeats. -/
def keep_alive (timeout interval : Nat) :
    List Nat → List KAct × Option ProtoErr
  | [] => ([], none)
  | delay :: rest =>
      if timeout < delay then
        ([KAct.ping], some .pingTimeoutError)
      else
        let (acts, res) := keep_alive timeout interval rest
        (KAct.ping :: KAct.sleepFor interval :: acts, res)

/-- The observable state of one per-session task at a given instant. -/
inductive TaskState
  | running
  | returned
  | raised (e : ProtoErr)
deriving DecidableEq, Repr

/-- Whether a task state counts as raised. -/
def TaskState.isRaised : TaskState → Bool
  | .raised _ => true
  | _ => false

/-- Whether a task state counts as finished. -/
def TaskState.isFinished : TaskState → Bool
  | .running => false
  | _ => true

/-- The completion condition of the join in `Protocol._new_connection`
(line 272): `asyncio.wait(tasks, return_when=asyncio.FIRST_EXCEPTION)`
completes once some task has raised, or once every task has finished. -/
def waitFirstException (tasks : List TaskState) : Bool :=
  tasks.any TaskState.isRaised || tasks.all TaskState.isFinished

/-- The outcome of a finished task, as `task.exception()` reports it. -/
inductive TaskOutcome
  | returned
  | raised (e : ProtoErr)
deriving DecidableEq, Repr

/-- The `for task in done:` loop of `Protocol._new_connection`
(lines 274-284), with the `done` set in iteration order and the number of
still-pending sibling tasks: the first task with an exception cancels all
pending tasks and re-raises its exception; a task that finished without an
exception raises `SignalingError` (without cancelling anything). Returns
the raised error and how many tasks were cancelled; `none` when `done` is
empty. -/
def settleDone (done : List TaskOutcome) (pending : Nat) :
    Option (ProtoErr × Nat) :=
  match done with
  | [] => none
  | .raised e :: _ => some (e, pending)
  | .returned :: _ => some (.signalingError, 0)

/-- The tail of `Protocol._new_connection` after the handshake, together
with the global path map: the join raises (via `settleDone`), and no
statement of `_new_connection` removes the client from its path slot or
calls `Protocol._clean_path` — which has no caller anywhere in
protocol.py — so the path and the path map are returned exactly as they
were. -/
def new_connection_tail (paths : List (List Nat × Path)) (p : Path)
    (done : List TaskOutcome) (pending : Nat) :
    List (List Nat × Path) × Path × Option ProtoErr :=
  (paths, p, (settleDone done pending).map Prod.fst)

/-- `Protocol._clean_path` (lines 484-487): delete the path from the map
when it is empty. Defined from the source; nothing in protocol.py invokes
it. -/
def clean_path (paths : List (List Nat × Path)) (p : Path) :
    List (List Nat × Path) :=
  if p.empty then paths.filter (fun kv => kv.1 ≠ p.initiator_key) else paths

/-! Concrete fixtures for evaluating the embedded engine. -/

/-- A fresh, unauthenticated client session. -/
def someClient : Client := ⟨0, none, false⟩

/-- A second fresh client session. -/
def otherClient : Client := ⟨1, none, false⟩

/-- A freshly created path with no occupants. -/
def emptyPath : Path := Path.init [9] 1

/-- A path whose initiator slot `0x01` is occupied. -/
def occupiedPath : Path :=
  ((Path.init [9] 1).set_initiator ⟨5, some .initiator, true⟩).2

/-- A path with exactly one responder, in slot `0x02`. -/
def pathWithResponder : Path :=
  { emptyPath with slots := dictSet emptyPath.slots 0x02 (some someClient) }

/-- C1: a responder handshake with a validated client-auth cookie never
sends `server-auth` to anyone: `path.add_responder` raises `TypeError`
first (iterating the slots dict yields bare int keys, which the
`for id_, client in ...` target cannot unpack), so the handshake aborts
with `TypeError` on an empty path and on one with the initiator present
alike — and the `server-auth` send statement that would follow names
`initiator`, not `responder`, as its target. -/
theorem responder_handshake_raises_type_error :
    handshake_responder emptyPath someClient (.clientAuth [7] [9]) [7]
        = .error .typeError
    ∧ handshake_responder occupiedPath otherClient (.clientAuth [7] [9]) [7]
        = .error .typeError :=
  ⟨rfl, rfl⟩

/-- C2: an initiator handshake with a validated cookie always raises
`AttributeError` before any `server-auth` is sent: the code evaluates
`previous_initiator.close` unconditionally, `previous_initiator` is `None`
for the first initiator on the path (scenario S1), and the `Client` class
defines no `close` at all, so the occupied-slot case fails the same way;
no close with code 3004 is ever scheduled. -/
theorem initiator_handshake_raises_attribute_error :
    handshake_initiator emptyPath someClient (.clientAuth [7] [9]) [7]
        = .error .attributeError
    ∧ handshake_initiator occupiedPath otherClient (.clientAuth [7] [9]) [7]
        = .error .attributeError :=
  ⟨rfl, rfl⟩

/-- C3: `Path.add_responder` never scans the slots: iterating the dict in
`for id_, client in self._slots` yields the int keys, tuple-unpacking the
first key raises `TypeError`, and the call fails on every path with the
usual 255 slot keys — occupied or not — never reaching the assignment or
`SlotsFullError`. -/
theorem add_responder_raises_type_error :
    emptyPath.add_responder someClient = .error .typeError
    ∧ occupiedPath.add_responder someClient = .error .typeError :=
  ⟨rfl, rfl⟩

/-- C4: the tail of `Protocol._new_connection` propagates the loop's
exception without removing the session from its slot and without calling
`Protocol._clean_path` (which no code in protocol.py invokes), so after
teardown the occupied path still holds its client and an empty path is
still present in the global path map. -/
theorem connection_teardown_leaves_paths_untouched :
    new_connection_tail [([9], occupiedPath)] occupiedPath
        [.raised .disconnected] 1
        = ([([9], occupiedPath)], occupiedPath, some .disconnected)
    ∧ occupiedPath.get_initiator = some ⟨5, some .initiator, true⟩
    ∧ new_connection_tail [([9], emptyPath)] emptyPath
        [.raised .disconnected] 1
        = ([([9], emptyPath)], emptyPath, some .disconnected)
    ∧ emptyPath.empty = true :=
  ⟨rfl, rfl, rfl, rfl⟩

/-- C5: `Path.get_responder_ids` filters the dict KEYS only, so it returns
every identifier `0x02..0xff` — 254 ids — on a path with no responders,
and exactly the same list on a path with one responder; the occupancy of
the slots never enters the result. -/
theorem get_responder_ids_ignores_occupancy :
    emptyPath.get_responder_ids = List.range' 2 254
    ∧ pathWithResponder.get_responder_ids = List.range' 2 254
    ∧ emptyPath.get_responder_ids ≠ [] :=
  ⟨rfl, rfl, by decide⟩

/-- C6: the join of the per-session tasks uses
`return_when=asyncio.FIRST_EXCEPTION`: with the receive loop returned and
the keep-alive task still running the wait has NOT completed, so nothing
is cancelled — the join is not first-to-finish — while a task that
finished without raising does, once the wait completes, make the engine
raise `SignalingError` (cancelling nothing). -/
theorem join_first_exception_not_first_to_finish :
    waitFirstException [TaskState.returned, TaskState.running] = false
    ∧ settleDone [TaskOutcome.returned] 0 = some (.signalingError, 0) :=
  ⟨rfl, rfl⟩

/-- C7: over any finite run of keep-alive rounds, the loop raises
`PingTimeoutError` exactly when some round's pong takes longer than the
keep-alive timeout, and while every pong is in time the loop's timeline is
a ping followed by a sleep of the keep-alive interval, repeated once per
round. -/
theorem keep_alive_pings_sleeps_and_times_out
    (timeout interval : Nat) (pong_delays : List Nat) :
    ((keep_alive timeout interval pong_delays).2 = some ProtoErr.pingTimeoutError
        ↔ ∃ d ∈ pong_delays, timeout < d)
    ∧ ((∀ d ∈ pong_delays, d ≤ timeout) →
        keep_alive timeout interval pong_delays
          = ((List.replicate pong_delays.length
                [KAct.ping, KAct.sleepFor interval]).flatten, none)) := by
  induction pong_delays with
  | nil => simp [keep_alive]
  | cons d rest ih =>
      rcases ih with ⟨ih1, ih2⟩
      by_cases h : timeout < d
      · refine ⟨?_, ?_⟩
        · simp only [keep_alive, if_pos h]
          simp only [true_iff, List.mem_cons]
          exact ⟨d, Or.inl rfl, h⟩
        · intro hall
          exact absurd (hall d (List.mem_cons_self d rest)) (by omega)
      · refine ⟨?_, ?_⟩
        · simp only [keep_alive, if_neg h]
          rw [ih1]
          constructor
          · rintro ⟨x, hx, hxt⟩
            exact ⟨x, List.mem_cons_of_mem d hx, hxt⟩
          · rintro ⟨x, hx, hxt⟩
            rcases List.mem_cons.mp hx with hxd | hxr
            · exact absurd (hxd ▸ hxt) h
            · exact ⟨x, hxr, hxt⟩
        · intro hall
          have hrest : ∀ x ∈ rest, x ≤ timeout :=
            fun x hx => hall x (List.mem_cons_of_mem d hx)
          simp only [keep_alive, if_neg h, ih2 hrest, List.length_cons,
            List.replicate_succ, List.flatten_cons]
          rfl

/-- C7 witness: with timeout 30, interval 5 and two in-time pongs, the
run is ping, sleep 5, ping, sleep 5 with no error. -/
theorem keep_alive_pings_sleeps_and_times_out_witness :
    keep_alive 30 5 [1, 2]
      = ((List.replicate ([1, 2] : List Nat).length
            [KAct.ping, KAct.sleepFor 5]).flatten, none) :=
  (keep_alive_pings_sleeps_and_times_out 30 5 [1, 2]).2 (by decide)

/-- C8: `_relay_message` with an absent receiver sends, as its only
action, a `send-error` back to the original sender whose payload is the
SHA-256 hash of the failed wire bytes — the nonce concatenated with the
ciphertext — and attempts no delivery, regardless of what the bounded
send would have done. -/
theorem relay_missing_receiver_sends_send_error
    (sha256 : List Nat → List Nat) (sender : Client) (message : RawMsg)
    (outcome : SendOutcome) :
    relay_message sha256 sender none message outcome
      = [(sender, Msg.sendError (sha256 (message.nonce ++ message.ciphertext)))] :=
  rfl

/-- C9: the `Client` class provides no `close` at all: attribute lookup of
`close` on a session raises `AttributeError`, `close` is not among the
class's attributes, and the engine's own `drop-responder` branch — which
evaluates `responder.close` — fails with `AttributeError`. -/
theorem client_has_no_close :
    pyGetattrClose (some someClient) = .error .attributeError
    ∧ "close" ∉ Client.attrNames
    ∧ run_initiator_step pathWithResponder (.dropResponder 0x02)
        = .error .attributeError := by
  refine ⟨rfl, by decide, rfl⟩

/-- C10: a relay frame with destination byte `0x01` in the initiator's
receive loop makes `path.get_responder(0x01)` raise `ValueError`, and the
loop terminates with exactly that `ValueError` — no send-error task is
scheduled and no `MessageFlowError` is produced. -/
theorem relay_to_initiator_id_raises_value_error
    (p : Path) (nonce ciphertext : List Nat) (rest : List InMsg) :
    p.get_responder 0x01 = .error .valueError
    ∧ run_initiator_loop p (.raw ⟨nonce, ciphertext, 0x01⟩ :: rest)
        = .error .valueError :=
  ⟨rfl, rfl⟩

end Saltyrtc
